import Mathlib

/-
Verification of the doc-shelf web client (React/TypeScript front end of the
document-ingestion pipeline).  The definitions below are a shallow embedding
of the client sources: `web/src/types/document.ts`, `web/src/api/client.ts`,
`web/src/components/UploadDropzone.tsx`, the `IngestProgress` component, the
`UploadPage` polling logic, and the bilingual display logic of
`web/src/pages/DocumentDetailPage.tsx`.  JavaScript runtime behaviour that
matters to the claims (empty strings being falsy, `Array#toString` joining
with commas, `indexOf` returning -1) is modelled explicitly.
-/

namespace DocShelf

/-- JavaScript `a || b` on strings: the empty string is the only falsy
string value, so `a || b` yields `b` exactly when `a` is empty. -/
def jsOrStr (a b : String) : String :=
  if a = "" then b else a

/-- JavaScript truthiness of a `string | null` value: `null` and the empty
string are falsy. -/
def jsTruthyStrOpt : Option String → Bool
  | none => false
  | some s => if s = "" then false else true

/-- JavaScript `a || b` on `string | null` values, as used for
`task.document_id || item.documentId`: a `null` or empty-string left side
falls back to the right side. -/
def jsOrOptStr (a b : Option String) : Option String :=
  match a with
  | some s => if s = "" then b else some s
  | none => b

/-- JavaScript `String#toLowerCase`, character by character (adequate for
the ASCII file-extension checks the client performs). -/
def jsToLower (s : String) : String :=
  String.mk (s.data.map Char.toLower)

/-- JavaScript `String#endsWith`: the suffix test on the character
sequence. -/
def strEndsWith (s suffix : String) : Bool :=
  suffix.data.isSuffixOf s.data

/- ---------------------------------------------------------------------
`web/src/types/document.ts`
--------------------------------------------------------------------- -/

/-- `TaskStatusValue` from `types/document.ts`: the exact union of status
strings the server delivers to the client, matching the state-machine
names (the two readers being the identities `claude` and `codex`). -/
inductive TaskStatusValue where
  | pending
  | extracting
  | reading_claude
  | reading_codex
  | saving
  | completed
  | failed
deriving DecidableEq, Fintype

/-- `ReadingResult` from `types/document.ts`: one reader's structured
output, with bilingual variants of each content field.  The optional
`action_items` fields are modelled as `Option`. -/
structure ReadingResult where
  title : String
  author : String
  document_type : String
  summary : String
  summary_ja : String
  key_points : List String
  key_points_ja : List String
  keyword_explanations : List String
  keyword_explanations_ja : List String
  action_items : Option (List String)
  action_items_ja : Option (List String)
  tags : List String
  confidence_notes : String
deriving DecidableEq

/-- `TaskStatus` from `types/document.ts`: the TaskRecord snapshot the
polling endpoint returns. -/
structure TaskStatus where
  task_id : String
  status : TaskStatusValue
  progress_message : String
  document_id : Option String
  error : Option String
  started_at : String
  completed_at : Option String
deriving DecidableEq

/-- A task status is terminal when it is `completed` or `failed`. -/
def isTerminal (s : TaskStatusValue) : Prop :=
  s = TaskStatusValue.completed ∨ s = TaskStatusValue.failed

instance (s : TaskStatusValue) : Decidable (isTerminal s) := by
  unfold isTerminal; infer_instance

/- ---------------------------------------------------------------------
`web/src/api/client.ts`
--------------------------------------------------------------------- -/

/-- An HTTP response as seen by `fetchJSON`: the `ok` flag, the numeric
status, the text body, and the parsed JSON payload (`none` when the body
is not a valid `T`, in which case `res.json()` rejects). -/
structure HttpResponse (T : Type) where
  ok : Bool
  status : Nat
  body : String
  payload : Option T

/-- `fetchJSON` from `api/client.ts`: when the response is not successful
it throws an `Error` whose message is the response status followed by the
response body; otherwise it returns the parsed JSON payload. -/
def fetchJSON {T : Type} (res : HttpResponse T) : Except String T :=
  if res.ok then
    match res.payload with
    | some t => Except.ok t
    | none => Except.error "invalid JSON body"
  else
    Except.error (toString res.status ++ ": " ++ res.body)

/-- The values admitted by `uploadDocument`'s declared `reader` parameter
type in `api/client.ts`. -/
def validReaderValues : List String :=
  ["none", "claude", "codex", "both"]

/-- A JavaScript runtime value passed where `uploadDocument` declares a
string parameter.  TypeScript annotations are erased at runtime, so a
caller may actually pass an array of strings (as `UploadPage` does). -/
inductive JSArg where
  | str (s : String)
  | strList (l : List String)
deriving DecidableEq

/-- `FormData#append` stringifies its value; `Array#toString` joins the
elements with commas. -/
def jsArgToFormValue : JSArg → String
  | JSArg.str s => s
  | JSArg.strList l => String.intercalate "," l

/-- The reader and shelves fields of the multipart form built by
`uploadDocument` (the file field is the uploaded file itself and carries
no further structure relevant here).  `shelves = none` means the field is
absent from the form. -/
structure SubmitForm where
  reader : String
  shelves : Option String
deriving DecidableEq

/-- `uploadDocument` from `api/client.ts`: appends the `reader` value to
the form, and appends `shelves` as a comma-joined list only when the list
is non-empty. -/
def uploadDocumentForm (reader : JSArg) (shelves : List String) : SubmitForm :=
  { reader := jsArgToFormValue reader
    shelves :=
      if shelves.length > 0 then some (String.intercalate "," shelves)
      else none }

/-- Modelled from the spec: the server's task-polling endpoint
(`src/server/routes_upload.py`, not present under the client sources).
Per the spec, "`get_task(task_id) -> TaskRecord snapshot`" and "Unknown
`task_id` is a not-found error"; known identifiers return the current
snapshot with a successful response. -/
def serverGetTask (registry : List (String × TaskStatus)) (taskId : String) :
    HttpResponse TaskStatus :=
  match registry.lookup taskId with
  | some t => { ok := true, status := 200, body := "", payload := some t }
  | none => { ok := false, status := 404, body := "task not found", payload := none }

/-- `getTask` from `api/client.ts` composed with the (spec-modelled)
server endpoint: fetch the task snapshot and parse it. -/
def getTask (registry : List (String × TaskStatus)) (taskId : String) :
    Except String TaskStatus :=
  fetchJSON (serverGetTask registry taskId)

/- ---------------------------------------------------------------------
`web/src/components/UploadDropzone.tsx`
--------------------------------------------------------------------- -/

/-- A file offered to the dropzone; only its name matters to the
acceptance check. -/
structure JSFile where
  name : String
deriving DecidableEq

/-- `ALLOWED_EXTENSIONS` from `UploadDropzone.tsx`. -/
def ALLOWED_EXTENSIONS : List String :=
  [".pdf", ".eml"]

/-- `isAcceptedFile` from `UploadDropzone.tsx`: the lowercased file name
must end in one of the allowed extensions. -/
def isAcceptedFile (file : JSFile) : Bool :=
  ALLOWED_EXTENSIONS.any (fun ext => strEndsWith (jsToLower file.name) ext)

/-- `handleDrop` from `UploadDropzone.tsx`: ignores the drop entirely when
disabled; otherwise filters the dropped files and invokes the selection
callback only when at least one file was accepted.  `none` means the
callback is not invoked. -/
def handleDrop (disabled : Bool) (files : List JSFile) : Option (List JSFile) :=
  if disabled then none
  else
    if (files.filter isAcceptedFile).length > 0 then
      some (files.filter isAcceptedFile)
    else none

/-- `handleFileChange` from `UploadDropzone.tsx`: when the picker reports
a non-empty file list, forwards the accepted subset (possibly empty) to
the selection callback. -/
def handleFileChange (files : List JSFile) : Option (List JSFile) :=
  if files.length > 0 then some (files.filter isAcceptedFile) else none

/-- The file-picker path as a whole: the hidden input is opened only by
`handleClick`, which ignores the click while the dropzone is disabled, so
a change event is delivered only when the dropzone was enabled. -/
def fileChangeViaPicker (disabled : Bool) (files : List JSFile) :
    Option (List JSFile) :=
  if disabled then none else handleFileChange files

/- ---------------------------------------------------------------------
`IngestProgress` component (src/unnamed/part_000)
--------------------------------------------------------------------- -/

/-- One entry of the component's `STEPS` array: a status key and its
display label. -/
structure Step where
  key : TaskStatusValue
  label : String
deriving DecidableEq

/-- `STEPS` from the `IngestProgress` component: the fixed ordered step
list rendered to the user. -/
def STEPS : List Step :=
  [ { key := TaskStatusValue.extracting, label := "Extracting text" }
  , { key := TaskStatusValue.reading_claude, label := "Claude is reading the document" }
  , { key := TaskStatusValue.reading_codex, label := "Codex is reading the document" }
  , { key := TaskStatusValue.saving, label := "Saving document" }
  , { key := TaskStatusValue.completed, label := "Done" } ]

/-- `ORDER` from the `IngestProgress` component: every status value in
state-machine order. -/
def ORDER : List TaskStatusValue :=
  [ TaskStatusValue.pending
  , TaskStatusValue.extracting
  , TaskStatusValue.reading_claude
  , TaskStatusValue.reading_codex
  , TaskStatusValue.saving
  , TaskStatusValue.completed
  , TaskStatusValue.failed ]

/-- JavaScript `Array#indexOf`: the index of the first occurrence, or -1
when absent. -/
def jsIndexOf (xs : List TaskStatusValue) (a : TaskStatusValue) : Int :=
  match xs.findIdx? (fun x => x = a) with
  | some i => (i : Int)
  | none => -1

/-- The `completed` marker of a step in `IngestProgress`:
`!failed && currentIdx > stepIdx`. -/
def stepCompleted (status key : TaskStatusValue) : Bool :=
  !(status = TaskStatusValue.failed) &&
    jsIndexOf ORDER key < jsIndexOf ORDER status

/-- The `active` marker of a step in `IngestProgress`:
`!failed && step.key === status`. -/
def stepActive (status key : TaskStatusValue) : Bool :=
  !(status = TaskStatusValue.failed) && key = status

/-- The failure banner of `IngestProgress`: rendered only when the status
is `failed`, with the text `Error: ` followed by the message prop. -/
def failedBanner (status : TaskStatusValue) (message : String) : Option String :=
  if status = TaskStatusValue.failed then some ("Error: " ++ message) else none

/- ---------------------------------------------------------------------
`UploadPage` (src/unnamed/part_003)
--------------------------------------------------------------------- -/

/-- One entry of the page's `items` state: the file name, the task
identifier returned by the upload call (if any), the last observed
status, the progress message, and the recorded document identifier. -/
structure UploadItem where
  fileName : String
  taskId : Option String
  status : TaskStatusValue
  message : String
  documentId : Option String
deriving DecidableEq

/-- The submit call of `handleUpload` in `UploadPage`:
`uploadDocument(item.file, selectedShelves)` passes the selected shelf
list in the position of `uploadDocument`'s `reader` parameter, so the
`shelves` parameter takes its default `[]`. -/
def handleUploadCall (selectedShelves : List String) : SubmitForm :=
  uploadDocumentForm (JSArg.strList selectedShelves) []

/-- The predicate of the `activeItems` filter in `UploadPage`'s polling
effect: `item.taskId && item.status !== "completed" && item.status !==
"failed"`. -/
def isActiveItem (item : UploadItem) : Bool :=
  jsTruthyStrOpt item.taskId &&
    !(item.status = TaskStatusValue.completed) &&
    !(item.status = TaskStatusValue.failed)

/-- `activeItems` in the polling effect: the items still being polled. -/
def activeItems (items : List UploadItem) : List UploadItem :=
  items.filter isActiveItem

/-- Whether the polling effect installs an interval timer: it returns
early, setting no timer, when there are no active items.  The effect
re-runs whenever `items` changes and its cleanup clears the previously
installed interval, so after each update the timer is active exactly when
this function returns `true` on the current items. -/
def effectStartsPolling (items : List UploadItem) : Bool :=
  !((activeItems items).length = 0)

/-- The early-return guard inside `poll`:
`!item.taskId || item.status === "completed" || item.status === "failed"`
returns the item unchanged without calling `getTask`. -/
def pollGuardSkips (item : UploadItem) : Bool :=
  !(jsTruthyStrOpt item.taskId) ||
    item.status = TaskStatusValue.completed ||
    item.status = TaskStatusValue.failed

/-- One item's update in `poll`: skipped items are returned unchanged;
a failed `getTask` call leaves the item unchanged (the `catch` branch);
a successful call overwrites status and message and records
`task.document_id || item.documentId`. -/
def pollItem (item : UploadItem) (res : Except String TaskStatus) : UploadItem :=
  if pollGuardSkips item then item
  else
    match res with
    | Except.error _ => item
    | Except.ok task =>
        { item with
          status := task.status
          message := task.progress_message
          documentId := jsOrOptStr task.document_id item.documentId }

/-- The items for which one polling cycle actually invokes `getTask`:
exactly those not skipped by the guard. -/
def pollTargets (items : List UploadItem) : List UploadItem :=
  items.filter (fun item => !(pollGuardSkips item))

/- ---------------------------------------------------------------------
`web/src/pages/DocumentDetailPage.tsx` — bilingual display
--------------------------------------------------------------------- -/

/-- The requested display language, `useState<"ja" | "en">` in
`DocumentDetailPage`. -/
inductive ReadingLang where
  | ja
  | en
deriving DecidableEq

/-- The other display language, used to state the fallback claims. -/
def otherLang : ReadingLang → ReadingLang
  | ReadingLang.ja => ReadingLang.en
  | ReadingLang.en => ReadingLang.ja

/-- The requested-language summary variant of a reading. -/
def requestedSummary (data : ReadingResult) : ReadingLang → String
  | ReadingLang.ja => data.summary_ja
  | ReadingLang.en => data.summary

/-- The displayed summary in `DocumentDetailPage`:
`readingLang === "ja" ? data.summary_ja || data.summary : data.summary ||
data.summary_ja`. -/
def displayedSummary (data : ReadingResult) : ReadingLang → String
  | ReadingLang.ja => jsOrStr data.summary_ja data.summary
  | ReadingLang.en => jsOrStr data.summary data.summary_ja

/-- The displayed key-point list in `DocumentDetailPage`: the requested
language's list when non-empty, otherwise the other language's list. -/
def displayedKeyPoints (data : ReadingResult) : ReadingLang → List String
  | ReadingLang.ja =>
      if data.key_points_ja.length > 0 then data.key_points_ja else data.key_points
  | ReadingLang.en =>
      if data.key_points.length > 0 then data.key_points else data.key_points_ja

/-- `keywordExplanationsJa` in `DocumentDetailPage`: the Japanese keyword
explanations, falling back to the Japanese action items within the same
language. -/
def keywordExplanationsJa (data : ReadingResult) : List String :=
  if data.keyword_explanations_ja.length > 0 then data.keyword_explanations_ja
  else data.action_items_ja.getD []

/-- `keywordExplanationsEn` in `DocumentDetailPage`: the English keyword
explanations, falling back to the English action items. -/
def keywordExplanationsEn (data : ReadingResult) : List String :=
  if data.keyword_explanations.length > 0 then data.keyword_explanations
  else data.action_items.getD []

/-- The requested-language keyword/action explanation variant. -/
def langVariantKeyword (data : ReadingResult) : ReadingLang → List String
  | ReadingLang.ja => keywordExplanationsJa data
  | ReadingLang.en => keywordExplanationsEn data

/-- The displayed keyword/action explanation list in
`DocumentDetailPage`: the requested language's composed variant when
non-empty, otherwise the other language's. -/
def displayedKeywordExplanations (data : ReadingResult) : ReadingLang → List String
  | ReadingLang.ja =>
      if (keywordExplanationsJa data).length > 0 then keywordExplanationsJa data
      else keywordExplanationsEn data
  | ReadingLang.en =>
      if (keywordExplanationsEn data).length > 0 then keywordExplanationsEn data
      else keywordExplanationsJa data

/- ---------------------------------------------------------------------
Concrete inputs used by the witnesses and counterexamples
--------------------------------------------------------------------- -/

/-- A reading whose English summary is empty while the Japanese summary is
present. -/
def rSummaryJaOnly : ReadingResult :=
  { title := "t", author := "a", document_type := "report"
    summary := "", summary_ja := "ja-only"
    key_points := [], key_points_ja := []
    keyword_explanations := [], keyword_explanations_ja := []
    action_items := none, action_items_ja := none
    tags := [], confidence_notes := "" }

/-- A reading with only English keyword explanations. -/
def rKeywordEnOnly : ReadingResult :=
  { title := "t", author := "a", document_type := "report"
    summary := "s", summary_ja := ""
    key_points := [], key_points_ja := []
    keyword_explanations := ["kw-en"], keyword_explanations_ja := []
    action_items := none, action_items_ja := none
    tags := [], confidence_notes := "" }

/-- The same keyword/action fields as `rKeywordEnOnly`, but different
summary and key-point fields. -/
def rKeywordEnOnly2 : ReadingResult :=
  { title := "t2", author := "a2", document_type := "memo"
    summary := "other", summary_ja := "other-ja"
    key_points := ["p"], key_points_ja := []
    keyword_explanations := ["kw-en"], keyword_explanations_ja := []
    action_items := none, action_items_ja := none
    tags := ["x"], confidence_notes := "n" }

/-- A task snapshot mid-pipeline. -/
def taskSnapEx : TaskStatus :=
  { task_id := "t1", status := TaskStatusValue.extracting
    progress_message := "Extracting text...", document_id := none
    error := none, started_at := "2026-01-01T00:00:00", completed_at := none }

/-- A registry holding exactly the task `t1`. -/
def registryEx : List (String × TaskStatus) :=
  [("t1", taskSnapEx)]

/-- A completed upload item. -/
def itemDoneEx : UploadItem :=
  { fileName := "a.pdf", taskId := some "t1"
    status := TaskStatusValue.completed, message := "Done", documentId := some "d1" }

/-- A failed upload item. -/
def itemFailEx : UploadItem :=
  { fileName := "b.pdf", taskId := some "t2"
    status := TaskStatusValue.failed, message := "boom", documentId := none }

/-- A failed task whose diagnostic `error` differs from its progress
message. -/
def taskFailEx : TaskStatus :=
  { task_id := "t9", status := TaskStatusValue.failed
    progress_message := "Reading failed at extraction", document_id := none
    error := some "extraction error: invalid PDF"
    started_at := "2026-01-02", completed_at := some "2026-01-02" }

/-- A non-terminal item polling the task `t9`. -/
def itemPollEx : UploadItem :=
  { fileName := "c.pdf", taskId := some "t9"
    status := TaskStatusValue.extracting, message := "Extracting...", documentId := none }

/-- A mid-pipeline task snapshot whose `document_id` is still null. -/
def taskRunEx : TaskStatus :=
  { task_id := "t3", status := TaskStatusValue.saving
    progress_message := "Saving document...", document_id := none
    error := none, started_at := "2026-01-03", completed_at := none }

/-- A non-terminal item that has already recorded a document id. -/
def itemRunEx : UploadItem :=
  { fileName := "d.pdf", taskId := some "t3"
    status := TaskStatusValue.reading_codex, message := "Reading...", documentId := some "doc-7" }

/-- Another completed item, for the poll-freezing witness. -/
def itemDoneEx2 : UploadItem :=
  { fileName := "e.pdf", taskId := some "t4"
    status := TaskStatusValue.completed, message := "Done", documentId := some "doc-8" }

/- ---------------------------------------------------------------------
Helper lemmas
--------------------------------------------------------------------- -/

/-- A JavaScript `xs.length > 0 ? xs : ys` conditional, restated by
emptiness of `xs`. -/
theorem listFallback_swap (a b : List String) :
    (if a.length > 0 then a else b) = (if a = [] then b else a) := by
  by_cases h : a = []
  · simp [h]
  · simp [h, List.length_pos.mpr h]

/-- A terminal item is skipped by the poll guard. -/
theorem pollGuardSkips_of_terminal (item : UploadItem)
    (h : isTerminal item.status) : pollGuardSkips item = true := by
  unfold pollGuardSkips
  rcases h with h | h <;> simp [h]

/-- A terminal item is not an active item. -/
theorem not_isActiveItem_of_terminal (item : UploadItem)
    (h : isTerminal item.status) : isActiveItem item = false := by
  unfold isActiveItem
  rcases h with h | h <;> simp [h]

/- ---------------------------------------------------------------------
Claim theorems
--------------------------------------------------------------------- -/

/-- C1: for every `ReadingResult` and requested display language, the
displayed summary is the requested-language summary variant when it is
non-empty and otherwise the other language's variant; in particular, if
one language's summary is empty and the other's is non-empty, both
requested languages display the non-empty one. -/
theorem summary_bilingual_fallback (data : ReadingResult) (lang : ReadingLang) :
    displayedSummary data lang =
      (if requestedSummary data lang = "" then requestedSummary data (otherLang lang)
       else requestedSummary data lang)
    ∧ (data.summary = "" → data.summary_ja ≠ "" →
        displayedSummary data ReadingLang.ja = data.summary_ja
        ∧ displayedSummary data ReadingLang.en = data.summary_ja)
    ∧ (data.summary_ja = "" → data.summary ≠ "" →
        displayedSummary data ReadingLang.ja = data.summary
        ∧ displayedSummary data ReadingLang.en = data.summary) := by
  refine ⟨?_, ?_, ?_⟩
  · cases lang <;> simp [displayedSummary, requestedSummary, otherLang, jsOrStr]
  · intro h1 h2
    constructor <;> simp [displayedSummary, jsOrStr, h1, h2]
  · intro h1 h2
    constructor <;> simp [displayedSummary, jsOrStr, h1, h2]

/-- C1 witness: on a reading whose English summary is empty, both
requested languages display the Japanese summary. -/
theorem summary_bilingual_fallback_check :
    displayedSummary rSummaryJaOnly ReadingLang.ja = "ja-only"
    ∧ displayedSummary rSummaryJaOnly ReadingLang.en = "ja-only" := by
  have h := (summary_bilingual_fallback rSummaryJaOnly ReadingLang.ja).2.1 rfl (by decide)
  simpa [rSummaryJaOnly] using h

/-- C2: the status values are exactly the entries of the state-machine
order list, and for a non-failed status the step list marks as completed
exactly the steps strictly preceding the status in that order and as
active exactly the step equal to the status. -/
theorem status_step_markers (status : TaskStatusValue)
    (h : status ≠ TaskStatusValue.failed) :
    (∀ s : TaskStatusValue, s ∈ ORDER) ∧ ORDER.Nodup
    ∧ (∀ step ∈ STEPS,
        (stepCompleted status step.key = true
          ↔ jsIndexOf ORDER step.key < jsIndexOf ORDER status))
    ∧ (∀ step ∈ STEPS, (stepActive status step.key = true ↔ step.key = status)) := by
  revert h
  revert status
  decide

/-- C2 witness: at status `saving`, the `extracting` step is marked
completed and the `saving` step is marked active. -/
theorem status_step_markers_check :
    stepCompleted TaskStatusValue.saving TaskStatusValue.extracting = true
    ∧ stepActive TaskStatusValue.saving TaskStatusValue.saving = true := by
  have h := status_step_markers TaskStatusValue.saving (by decide)
  refine ⟨?_, ?_⟩
  · exact (h.2.2.1 { key := TaskStatusValue.extracting, label := "Extracting text" }
      (by decide)).mpr (by decide)
  · exact (h.2.2.2 { key := TaskStatusValue.saving, label := "Saving document" }
      (by decide)).mpr rfl

/-- C3: a polling cycle never invokes `getTask` for an item whose status
is terminal, and once every item is terminal the poll has no targets and
the polling effect installs no timer. -/
theorem terminal_items_not_polled (items : List UploadItem) :
    (∀ item ∈ items, isTerminal item.status → item ∉ pollTargets items)
    ∧ ((∀ item ∈ items, isTerminal item.status) →
        pollTargets items = [] ∧ effectStartsPolling items = false) := by
  constructor
  · intro item _ hterm hin
    have hmem := List.mem_filter.mp hin
    have hguard := pollGuardSkips_of_terminal item hterm
    simp [hguard] at hmem
  · intro hall
    have htargets : pollTargets items = [] := by
      apply List.filter_eq_nil_iff.mpr
      intro item hmem
      simp [pollGuardSkips_of_terminal item (hall item hmem)]
    have hactive : activeItems items = [] := by
      apply List.filter_eq_nil_iff.mpr
      intro item hmem
      simp [not_isActiveItem_of_terminal item (hall item hmem)]
    exact ⟨htargets, by simp [effectStartsPolling, hactive]⟩

/-- C3 witness: with one completed and one failed item, the poll has no
targets and no timer is installed. -/
theorem terminal_items_not_polled_check :
    pollTargets [itemDoneEx, itemFailEx] = []
    ∧ effectStartsPolling [itemDoneEx, itemFailEx] = false := by
  exact (terminal_items_not_polled [itemDoneEx, itemFailEx]).2 (by decide)

/-- C4: `handleUpload` calls `uploadDocument(item.file, selectedShelves)`,
so the selected shelf list is sent as the `reader` form field and the
shelves field is always absent — contradicting `uploadDocument`'s own
declared parameter types. -/
theorem upload_shelves_sent_as_reader :
    handleUploadCall ["shelf-1"] = { reader := "shelf-1", shelves := none }
    ∧ "shelf-1" ∉ validReaderValues
    ∧ (∀ selectedShelves : List String, (handleUploadCall selectedShelves).shelves = none) := by
  refine ⟨by decide, by decide, ?_⟩
  intro selectedShelves
  rfl

/-- C5 counterexample: after polling a failed task, the rendered failure
text is `Error: ` followed by the task's `progress_message`, not the
task's `error` field verbatim. -/
theorem failed_text_not_error_field :
    failedBanner (pollItem itemPollEx (Except.ok taskFailEx)).status
        (pollItem itemPollEx (Except.ok taskFailEx)).message
      = some ("Error: " ++ taskFailEx.progress_message)
    ∧ taskFailEx.error = some "extraction error: invalid PDF"
    ∧ failedBanner (pollItem itemPollEx (Except.ok taskFailEx)).status
        (pollItem itemPollEx (Except.ok taskFailEx)).message
      ≠ some "extraction error: invalid PDF" := by
  decide

/-- C5 amended: the failure banner is rendered exactly when the status is
`failed` (so a failed task is distinguishable from an in-progress one),
its text is `Error: ` followed by the item's message, and the poll sets
that message from the task's `progress_message` field (not from `error`). -/
theorem failed_banner_amended :
    (∀ (s : TaskStatusValue) (m : String),
      (failedBanner s m).isSome = true ↔ s = TaskStatusValue.failed)
    ∧ (∀ m : String, failedBanner TaskStatusValue.failed m = some ("Error: " ++ m))
    ∧ (∀ (item : UploadItem) (task : TaskStatus), pollGuardSkips item = false →
        (pollItem item (Except.ok task)).message = task.progress_message
        ∧ (pollItem item (Except.ok task)).status = task.status) := by
  refine ⟨?_, ?_, ?_⟩
  · intro s m
    unfold failedBanner
    by_cases h : s = TaskStatusValue.failed <;> simp [h]
  · intro m
    simp [failedBanner]
  · intro item task h
    constructor <;> simp [pollItem, h]

/-- C5 amended witness: the poll records the failed task's progress
message, and the banner shows it with the `Error: ` prefix. -/
theorem failed_banner_amended_check :
    (pollItem itemPollEx (Except.ok taskFailEx)).message = "Reading failed at extraction"
    ∧ failedBanner TaskStatusValue.failed "Reading failed at extraction"
        = some "Error: Reading failed at extraction" := by
  refine ⟨?_, ?_⟩
  · have h := (failed_banner_amended.2.2 itemPollEx taskFailEx (by decide)).1
    simpa [taskFailEx] using h
  · exact (failed_banner_amended.2.1 "Reading failed at extraction").trans (by decide)

/-- C6: the displayed keyword/action explanation list is the
requested-language composed variant when non-empty and otherwise the
other language's, and each displayed content field depends only on its
own field's variants (keyword/action, summary, and key-point outcomes are
computed independently). -/
theorem keyword_explanations_fallback (data : ReadingResult) (lang : ReadingLang) :
    displayedKeywordExplanations data lang =
      (if langVariantKeyword data lang = [] then langVariantKeyword data (otherLang lang)
       else langVariantKeyword data lang)
    ∧ (∀ d2 : ReadingResult,
        d2.keyword_explanations = data.keyword_explanations →
        d2.keyword_explanations_ja = data.keyword_explanations_ja →
        d2.action_items = data.action_items →
        d2.action_items_ja = data.action_items_ja →
        displayedKeywordExplanations d2 lang = displayedKeywordExplanations data lang)
    ∧ (∀ d2 : ReadingResult, d2.summary = data.summary → d2.summary_ja = data.summary_ja →
        displayedSummary d2 lang = displayedSummary data lang)
    ∧ (∀ d2 : ReadingResult, d2.key_points = data.key_points →
        d2.key_points_ja = data.key_points_ja →
        displayedKeyPoints d2 lang = displayedKeyPoints data lang) := by
  refine ⟨?_, ?_, ?_, ?_⟩
  · cases lang <;>
      simp only [displayedKeywordExplanations, langVariantKeyword, otherLang] <;>
      exact listFallback_swap _ _
  · intro d2 h1 h2 h3 h4
    cases lang <;>
      simp [displayedKeywordExplanations, keywordExplanationsJa, keywordExplanationsEn,
        h1, h2, h3, h4]
  · intro d2 h1 h2
    cases lang <;> simp [displayedSummary, h1, h2]
  · intro d2 h1 h2
    cases lang <;> simp [displayedKeyPoints, h1, h2]

/-- C6 witness: a reading with only English keyword explanations displays
them for the Japanese request, and a reading differing only in unrelated
fields displays the same list. -/
theorem keyword_explanations_fallback_check :
    displayedKeywordExplanations rKeywordEnOnly ReadingLang.ja = ["kw-en"]
    ∧ displayedKeywordExplanations rKeywordEnOnly2 ReadingLang.ja
        = displayedKeywordExplanations rKeywordEnOnly ReadingLang.ja := by
  have h := keyword_explanations_fallback rKeywordEnOnly ReadingLang.ja
  exact ⟨h.1.trans (by decide), h.2.1 rKeywordEnOnly2 rfl rfl rfl rfl⟩

/-- C7: `getTask` on an unknown identifier yields the not-found error
(status and body) rather than a snapshot; `fetchJSON` throws the status
and body whenever the response is not successful, and a snapshot is
returned only on success. -/
theorem getTask_not_found_error (registry : List (String × TaskStatus)) (taskId : String) :
    (registry.lookup taskId = none →
      getTask registry taskId = Except.error "404: task not found")
    ∧ (∀ t, registry.lookup taskId = some t → getTask registry taskId = Except.ok t)
    ∧ (∀ res : HttpResponse TaskStatus, res.ok = false →
        fetchJSON res = Except.error (toString res.status ++ ": " ++ res.body)) := by
  refine ⟨?_, ?_, ?_⟩
  · intro h
    unfold getTask serverGetTask
    rw [h]
    rfl
  · intro t h
    unfold getTask serverGetTask
    rw [h]
    rfl
  · intro res h
    unfold fetchJSON
    simp [h]

/-- C7 witness: on a registry holding only `t1`, an unknown identifier
yields the 404 error and the known identifier yields its snapshot. -/
theorem getTask_not_found_error_check :
    getTask registryEx "missing" = Except.error "404: task not found"
    ∧ getTask registryEx "t1" = Except.ok taskSnapEx := by
  exact ⟨(getTask_not_found_error registryEx "missing").1 rfl,
    (getTask_not_found_error registryEx "t1").2.1 taskSnapEx rfl⟩

/-- C8: every file forwarded by the dropzone (drop or picker path) has an
accepted extension, a drop with no qualifying file does not invoke the
callback, and a disabled dropzone forwards nothing by either path. -/
theorem dropzone_accepts_only_pdf_eml (disabled : Bool) (files : List JSFile) :
    (∀ out, handleDrop disabled files = some out → ∀ f ∈ out, isAcceptedFile f = true)
    ∧ (∀ out, fileChangeViaPicker disabled files = some out →
        ∀ f ∈ out, isAcceptedFile f = true)
    ∧ (files.filter isAcceptedFile = [] → handleDrop disabled files = none)
    ∧ (disabled = true →
        handleDrop disabled files = none ∧ fileChangeViaPicker disabled files = none) := by
  refine ⟨?_, ?_, ?_, ?_⟩
  · intro out hout f hf
    unfold handleDrop at hout
    by_cases hd : disabled = true
    · simp [hd] at hout
    · by_cases hl : (files.filter isAcceptedFile).length > 0
      · simp [hd, hl] at hout
        subst hout
        exact (List.mem_filter.mp hf).2
      · simp [hd, hl] at hout
  · intro out hout f hf
    unfold fileChangeViaPicker handleFileChange at hout
    by_cases hd : disabled = true
    · simp [hd] at hout
    · by_cases hl : files.length > 0
      · simp [hd, hl] at hout
        subst hout
        exact (List.mem_filter.mp hf).2
      · simp [hd, hl] at hout
  · intro h
    unfold handleDrop
    by_cases hd : disabled = true <;> simp [hd, h]
  · intro hd
    exact ⟨by simp [handleDrop, hd], by simp [fileChangeViaPicker, hd]⟩

/-- C8 witness: a mixed drop forwards exactly the PDF and EML files, and
a disabled dropzone forwards nothing. -/
theorem dropzone_accepts_only_pdf_eml_check :
    isAcceptedFile { name := "A.PDF" } = true
    ∧ handleDrop true [{ name := "A.PDF" }] = none
    ∧ handleDrop false [{ name := "b.txt" }] = none := by
  refine ⟨?_, ?_, ?_⟩
  · exact (dropzone_accepts_only_pdf_eml false
      [{ name := "A.PDF" }, { name := "b.txt" }, { name := "c.eml" }]).1
      [{ name := "A.PDF" }, { name := "c.eml" }] (by decide)
      { name := "A.PDF" } (by decide)
  · exact ((dropzone_accepts_only_pdf_eml true [{ name := "A.PDF" }]).2.2.2 rfl).1
  · exact (dropzone_accepts_only_pdf_eml false [{ name := "b.txt" }]).2.2.1 (by decide)

/-- C9: when the status is `failed`, no step is marked completed and no
step is marked active. -/
theorem failed_status_marks_no_step :
    ∀ key : TaskStatusValue,
      stepCompleted TaskStatusValue.failed key = false
      ∧ stepActive TaskStatusValue.failed key = false := by
  decide

/-- C10: the poll never mutates an item whose status is terminal, a null
`document_id` in the poll response leaves the recorded value in place,
and the recorded document id is never reset to null. -/
theorem pollItem_terminal_frozen (item : UploadItem) (res : Except String TaskStatus) :
    (isTerminal item.status → pollItem item res = item)
    ∧ (∀ task, res = Except.ok task → task.document_id = none →
        (pollItem item res).documentId = item.documentId)
    ∧ ((pollItem item res).documentId = none → item.documentId = none) := by
  refine ⟨?_, ?_, ?_⟩
  · intro hterm
    simp [pollItem, pollGuardSkips_of_terminal item hterm]
  · intro task hres hdoc
    subst hres
    by_cases hg : pollGuardSkips item = true
    · simp [pollItem, hg]
    · simp [pollItem, hg, jsOrOptStr, hdoc]
  · intro hnone
    by_cases hg : pollGuardSkips item = true
    · simpa [pollItem, hg] using hnone
    · cases res with
      | error e => simpa [pollItem, hg] using hnone
      | ok task =>
        simp [pollItem, hg] at hnone
        unfold jsOrOptStr at hnone
        cases hdoc : task.document_id with
        | none =>
          rw [hdoc] at hnone
          exact hnone
        | some s =>
          rw [hdoc] at hnone
          by_cases hs : s = ""
          · simpa [hs] using hnone
          · simp [hs] at hnone

/-- C10 witness: polling leaves a completed item untouched, and a null
`document_id` response preserves a previously recorded document id. -/
theorem pollItem_terminal_frozen_check :
    pollItem itemDoneEx2 (Except.ok taskRunEx) = itemDoneEx2
    ∧ (pollItem itemRunEx (Except.ok taskRunEx)).documentId = some "doc-7" := by
  refine ⟨?_, ?_⟩
  · exact (pollItem_terminal_frozen itemDoneEx2 (Except.ok taskRunEx)).1 (Or.inl rfl)
  · have h := (pollItem_terminal_frozen itemRunEx (Except.ok taskRunEx)).2.1 taskRunEx rfl rfl
    simpa [itemRunEx] using h

end DocShelf
